import Mathlib

/-!
Verification of the core logic of a CSV data-visualization tool
(`app.py`): CSV loader fallback chain, dataframe cleaner, column-kind
inference, chart suggestion heuristics, and the figure-building dispatch.

The pandas dataframe is shallowly embedded: a dataframe is an ordered list
of named columns; a column carries a storage dtype (numeric, datetime, or
object) and an ordered list of cells; a cell is a missing marker, a string,
an integer, or a date ordinal. External library routines (the pandas CSV
parser and its best-effort datetime parser) are parameters of the embedded
functions; everything translated from the repository keeps its source name.
-/

/-- Storage dtype of a pandas column, as distinguished by
`pd.api.types.is_numeric_dtype`, `is_datetime64_any_dtype`, and the `object`
dtype used for strings/mixed data. -/
inductive Dtype where
  | numeric
  | datetime
  | object
deriving DecidableEq

/-- One cell of a column: missing (NaN/NaT), a string, a number
(numeric cells are modelled as integers), or a parsed date ordinal. -/
inductive Cell where
  | na
  | str (s : String)
  | num (n : Int)
  | date (d : Nat)
deriving DecidableEq

/-- A named pandas column: header, storage dtype, ordered cells. -/
structure Column where
  name : String
  dtype : Dtype
  cells : List Cell
deriving DecidableEq

/-- A pandas DataFrame: an ordered list of named columns. -/
structure DataFrame where
  cols : List Column
deriving DecidableEq

/-- Row count of a dataframe (`len(df)`): the common length of its columns,
read off the first column. -/
def rowCount (df : DataFrame) : Nat :=
  match df.cols with
  | [] => 0
  | c :: _ => c.cells.length

/-- Cells of the column named `x` (`df[x]`); the lookup is modelled total,
returning no cells when the column is absent (pandas raises a KeyError). -/
def colCells (df : DataFrame) (x : String) : List Cell :=
  match df.cols.find? (fun c => c.name = x) with
  | some c => c.cells
  | none => []

/-- Count of distinct non-missing values (`Series.nunique(dropna=True)`). -/
def nunique (c : Column) : Nat :=
  ((c.cells.filter (fun x => decide (x ≠ Cell.na))).dedup).length

/-- Numeric reading of a cell, as used by a pandas numeric sum: missing
values are skipped (contribute 0). -/
def cellNum : Cell → Int
  | Cell.num n => n
  | _ => 0

/-- Rank used to order group keys of mixed shape: pandas sorts group keys,
placing missing keys last. -/
def cellRank : Cell → Nat
  | Cell.num _ => 0
  | Cell.str _ => 1
  | Cell.date _ => 2
  | Cell.na => 3

/-- Lexicographic order on character lists, by code point. -/
def charListLe : List Char → List Char → Bool
  | [], _ => true
  | _ :: _, [] => false
  | a :: as, b :: bs => if a = b then charListLe as bs else decide (a < b)

/-- Lexicographic order on strings, by code point (the order in which
pandas sorts string group keys). -/
def strLe (s t : String) : Bool := charListLe s.data t.data

/-- Total order on cells modelling the key order of a sorted groupby. -/
def cellLe (a b : Cell) : Bool :=
  if cellRank a ≠ cellRank b then decide (cellRank a < cellRank b)
  else
    match a, b with
    | Cell.num m, Cell.num n => decide (m ≤ n)
    | Cell.str s, Cell.str t => strLe s t
    | Cell.date d, Cell.date e => decide (d ≤ e)
    | _, _ => true

instance cellLeDecRel : DecidableRel (fun a b : Cell => cellLe a b = true) :=
  fun a b => instDecidableEqBool (cellLe a b) true

/-- Python `str(...)` of a cell, as applied by `Series.astype(str)`:
note that a missing value becomes the literal text `nan`. -/
def pyStr : Cell → String
  | Cell.na => "nan"
  | Cell.str s => s
  | Cell.num n => toString n
  | Cell.date d => toString d

/-- Remove leading and trailing whitespace characters from a character
list, modelling Python `str.strip()`. -/
def stripChars (l : List Char) : List Char :=
  ((l.dropWhile Char.isWhitespace).reverse.dropWhile Char.isWhitespace).reverse

/-- Python `str.strip()` on a string. -/
def pyStrip (s : String) : String := String.mk (stripChars s.data)

/-- Header normalization step of the cleaner:
`df.columns = [str(c).strip() for c in df.columns]` (headers are already
strings in the model). -/
def stripHeader (c : Column) : Column :=
  Column.mk (pyStrip c.name) c.dtype c.cells

/-- Column-retention predicate of `df.dropna(axis=1, how="all")`: a column
is kept exactly when it has at least one non-missing cell. -/
def keepCol (c : Column) : Bool :=
  c.cells.any (fun x => decide (x ≠ Cell.na))

/-- Cell-trimming step for an object column:
`df[col] = df[col].astype(str).str.strip()`. -/
def stripCells (c : Column) : Column :=
  Column.mk c.name c.dtype (c.cells.map (fun x => Cell.str (pyStrip (pyStr x))))

/-- All-or-nothing parse of a whole column of string cells, modelling
`pd.to_datetime(col, errors="raise")`: the result is the parsed dates when
every cell parses, and a failure otherwise (non-string cells cannot occur
here because the cleaner stringifies object columns first). -/
def parseAll (parse : String → Option Nat) : List Cell → Option (List Nat)
  | [] => some []
  | x :: rest =>
    match x with
    | Cell.str s =>
      match parse s, parseAll parse rest with
      | some d, some ds => some (d :: ds)
      | _, _ => none
    | _ => none

/-- Best-effort datetime reparse of one column: on success the column
becomes a datetime column; on any failure it is left unchanged
(`try: df[col] = pd.to_datetime(df[col], errors="raise") except: pass`). -/
def tryParseDates (parse : String → Option Nat) (c : Column) : Column :=
  match parseAll parse c.cells with
  | some ds => Column.mk c.name Dtype.datetime (ds.map Cell.date)
  | none => c

/-- Per-column body of the cleaner loops: only object-dtype columns are
trimmed and date-reparsed; numeric and datetime columns pass through. -/
def cleanCol (parse : String → Option Nat) (c : Column) : Column :=
  match c.dtype with
  | Dtype.object => tryParseDates parse (stripCells c)
  | _ => c

/-- The Table Cleaner `clean_dataframe`: normalize headers, drop all-missing
columns, trim string cells of object columns, then opportunistically reparse
object columns as datetimes. The external pandas datetime parser is the
`parse` parameter. This is the per-column pipeline the source runs on inputs
whose surviving trimmed headers are pairwise distinct; for the duplicate-label
error path of the source, see `clean_dataframe_checked` below. -/
def clean_dataframe (parse : String → Option Nat) (df : DataFrame) : DataFrame :=
  DataFrame.mk (((df.cols.map stripHeader).filter keepCol).map (cleanCol parse))

/-- The Table Cleaner including pandas' duplicate-label behavior. When a
column name is duplicated after header trimming and the all-missing column
drop, every label-based access `df[col]` in the trim loop and the date
loop returns a DataFrame instead of a Series, so `.str` (line 42) and
`.dtype` (line 45) raise an uncaught AttributeError and the function
returns no table; `none` models that raise. Otherwise label indexing is
per-column and the pipeline `clean_dataframe` runs to completion. -/
def clean_dataframe_checked (parse : String → Option Nat) (df : DataFrame) :
    Option DataFrame :=
  if (((df.cols.map stripHeader).filter keepCol).map (fun c => c.name)).Nodup then
    some (clean_dataframe parse df)
  else none

/-- Modelled from the spec: the pandas best-effort datetime parser is
external library code not in this repository; the spec only requires a
deterministic best-effort parse. This concrete instance accepts ISO
`YYYY-MM-DD` strings and returns an ordinal encoding; anything else fails. -/
def parseIsoDate (s : String) : Option Nat :=
  match s.data with
  | [y1, y2, y3, y4, h1, m1, m2, h2, d1, d2] =>
    if h1 = '-' ∧ h2 = '-' ∧ y1.isDigit ∧ y2.isDigit ∧ y3.isDigit ∧ y4.isDigit ∧
        m1.isDigit ∧ m2.isDigit ∧ d1.isDigit ∧ d2.isDigit then
      some (((((y1.toNat - 48) * 10 + (y2.toNat - 48)) * 10 + (y3.toNat - 48)) * 10 +
          (y4.toNat - 48)) * 10000 + ((m1.toNat - 48) * 10 + (m2.toNat - 48)) * 100 +
          ((d1.toNat - 48) * 10 + (d2.toNat - 48)))
    else none
  | _ => none

/-- Kind of one column, the loop body of `infer_column_kinds`: numeric
dtype wins, then datetime dtype, else the cardinality heuristic
`unique_count <= max(20, int(0.05 * len(df)))`. For every realistic row
count `n`, the Python expression `int(0.05 * n)` equals `n // 20`: the
double nearest 0.05 exceeds 1/20 by about 2.8e-18, so the rounded product
never falls below `n / 20` nor reaches the next integer. -/
def kindOf (df : DataFrame) (c : Column) : String :=
  match c.dtype with
  | Dtype.numeric => "numeric"
  | Dtype.datetime => "datetime"
  | Dtype.object =>
    if nunique c ≤ max 20 (rowCount df / 20) then ("categorical") else ("text")

/-- The Kind Inferencer `infer_column_kinds`: mapping of column name to
kind, in column order. -/
def infer_column_kinds (df : DataFrame) : List (String × String) :=
  df.cols.map (fun c => (c.name, kindOf df c))

/-- Names of the numeric-kind columns, in order
(`[c for c, k in kinds.items() if k == "numeric"]`). -/
def numericCols (kinds : List (String × String)) : List String :=
  (kinds.filter (fun p => p.2 = "numeric")).map Prod.fst

/-- Names of the categorical-kind columns, in order. -/
def catCols (kinds : List (String × String)) : List String :=
  (kinds.filter (fun p => p.2 = "categorical")).map Prod.fst

/-- Names of the datetime-kind columns, in order. -/
def dtCols (kinds : List (String × String)) : List String :=
  (kinds.filter (fun p => p.2 = "datetime")).map Prod.fst

/-- The Chart Suggester `suggest_charts`: sequential conditional appends to
an initially empty suggestion list, mirroring the source statement by
statement (`df` is accepted but unused, as in the source). -/
def suggest_charts (df : DataFrame) (kinds : List (String × String)) :
    List (String × String × Option String) :=
  let numeric := numericCols kinds
  let cat := catCols kinds
  let dt := dtCols kinds
  let s0 : List (String × String × Option String) := []
  let s1 := if dt ≠ [] ∧ numeric ≠ [] then
    s0 ++ [("line", dt.headD (""), some (numeric.headD ("")))] else s0
  let s2 := if cat ≠ [] ∧ numeric ≠ [] then
    s1 ++ [("bar", cat.headD (""), some (numeric.headD ("")))] else s1
  let s3 := if numeric ≠ [] ∧ 2 ≤ numeric.length then
    s2 ++ [("scatter", numeric.headD (""), some (numeric.getD 1 ("")))] else s2
  let s4 := if cat ≠ [] ∧ numeric ≠ [] then
    s3 ++ [("box", cat.headD (""), some (numeric.headD ("")))] else s3
  let s5 := if numeric ≠ [] then
    s4 ++ [("histogram", numeric.headD (""), none)] else s4
  let s6 := if cat ≠ [] ∧ numeric ≠ [] then
    s5 ++ [("pie", cat.headD (""), some (numeric.headD ("")))] else s5
  s6

/-- The spec's reading of the Suggester: six independently gated rules
concatenated in the fixed priority order line, bar, scatter, box,
histogram, pie, each using the first (or second) column of the required
kinds. -/
def suggestChartsSpec (kinds : List (String × String)) :
    List (String × String × Option String) :=
  let numeric := numericCols kinds
  let cat := catCols kinds
  let dt := dtCols kinds
  (if dt ≠ [] ∧ numeric ≠ [] then
    [("line", dt.headD (""), some (numeric.headD ("")))] else []) ++
  (if cat ≠ [] ∧ numeric ≠ [] then
    [("bar", cat.headD (""), some (numeric.headD ("")))] else []) ++
  (if numeric ≠ [] ∧ 2 ≤ numeric.length then
    [("scatter", numeric.headD (""), some (numeric.getD 1 ("")))] else []) ++
  (if cat ≠ [] ∧ numeric ≠ [] then
    [("box", cat.headD (""), some (numeric.headD ("")))] else []) ++
  (if numeric ≠ [] then [("histogram", numeric.headD (""), none)] else []) ++
  (if cat ≠ [] ∧ numeric ≠ [] then
    [("pie", cat.headD (""), some (numeric.headD ("")))] else [])

/-- Pie aggregation `df.groupby(x, dropna=False)[y].sum()`: one entry per
distinct key of column `x` (keys sorted, as pandas sorts group keys), whose
value is the sum of the `y` cells of the rows carrying that key. -/
def groupbySum (df : DataFrame) (x y : String) : List (Cell × Int) :=
  let rows := (colCells df x).zip (colCells df y)
  let keys := List.insertionSort (fun a b => cellLe a b = true) (colCells df x).dedup
  keys.map (fun k =>
    (k, ((rows.filter (fun r => decide (r.1 = k))).map (fun r => cellNum r.2)).sum))

/-- A plotly figure, recorded as the chart-construction call the builder
dispatched to, with the arguments it passed. -/
inductive Figure where
  | line (df : DataFrame) (x y color : Option String) (title : String)
  | bar (df : DataFrame) (x y color : Option String) (title : String)
  | scatter (df : DataFrame) (x y color : Option String) (title : String)
  | histogram (df : DataFrame) (x color : Option String) (title : String)
  | box (df : DataFrame) (x y color : Option String) (title : String)
  | pieAgg (groups : List (Cell × Int)) (names values : String) (title : String)
  | pieCount (df : DataFrame) (names : Option String) (title : String)
deriving DecidableEq

/-- Python `a or b` on optional column names (the HTTP layer normalizes
empty form fields to `None`, so truthiness coincides with presence). -/
def optOr (a b : Option String) : Option String :=
  match a with
  | some v => some v
  | none => b

/-- The Figure Builder `build_figure`: dispatch on the chart-type string;
`agg` and `color_continuous_scale` are accepted but never used, exactly as
in the source; an unrecognized chart type raises
`ValueError("Unsupported chart type")`. -/
def build_figure (df : DataFrame) (chart : String) (x y color : Option String)
    (agg : Option String) (title : String) (color_continuous_scale : Option String) :
    Except String Figure :=
  if chart = "line" then Except.ok (Figure.line df x y color title)
  else if chart = "bar" then Except.ok (Figure.bar df x y color title)
  else if chart = "scatter" then Except.ok (Figure.scatter df x y color title)
  else if chart = "histogram" then Except.ok (Figure.histogram df (optOr x y) color title)
  else if chart = "box" then Except.ok (Figure.box df x y color title)
  else if chart = "pie" then
    match x, y with
    | some xv, some yv => Except.ok (Figure.pieAgg (groupbySum df xv yv) xv yv title)
    | _, _ => Except.ok (Figure.pieCount df (optOr x color) title)
  else Except.error ("Unsupported chart type")

/-- Encoding loop of the CSV loader: try `pd.read_csv` under each encoding
in turn, a failure (`except Exception: continue`) moving to the next. The
external `pd.read_csv` is the `readCsv` parameter. -/
def tryEncodings (readCsv : String → List Nat → Option DataFrame)
    (buffer : List Nat) : List String → Option DataFrame
  | [] => none
  | e :: rest =>
    match readCsv e buffer with
    | some df => some df
    | none => tryEncodings readCsv buffer rest

/-- The CSV Loader `load_csv_to_dataframe`: try utf-8, then cp1252, then a
final unguarded sniffing parse whose failure propagates as the parse
error (modelled by the `none` result). -/
def load_csv_to_dataframe (readCsv : String → List Nat → Option DataFrame)
    (sniffCsv : List Nat → Option DataFrame) (buffer : List Nat) : Option DataFrame :=
  match tryEncodings readCsv buffer ["utf-8", "cp1252"] with
  | some df => some df
  | none => sniffCsv buffer

/-- The spec's reading of the loader: the result of the first strategy that
succeeds, in the fixed strategy order. -/
def firstSuccess : List (Option DataFrame) → Option DataFrame
  | [] => none
  | o :: rest =>
    match o with
    | some df => some df
    | none => firstSuccess rest

/-- Header and height of a column, the data the cleaner must preserve per
surviving column. -/
def colSig (c : Column) : String × Nat :=
  (c.name, c.cells.length)

/-- The Region/Sales example table: rows (A,10), (A,20), (B,5). -/
def exampleDf : DataFrame :=
  DataFrame.mk
    [Column.mk ("Region") Dtype.object [Cell.str ("A"), Cell.str ("A"), Cell.str ("B")],
     Column.mk ("Sales") Dtype.numeric [Cell.num 10, Cell.num 20, Cell.num 5]]

/-- Two headers that collide after trimming: `a ` and `a`. -/
def dupDf : DataFrame :=
  DataFrame.mk
    [Column.mk ("a ") Dtype.object [Cell.str ("x")],
     Column.mk ("a") Dtype.object [Cell.str ("y")]]

/-- A kinds mapping with one datetime, two numeric and one categorical
column. -/
def kindsEx : List (String × String) :=
  [("d", "datetime"), ("n1", "numeric"), ("n2", "numeric"), ("c", "categorical")]

theorem head?_dropWhile_false {p : Char → Bool} {l : List Char} {a : Char}
    (h : (List.dropWhile p l).head? = some a) : p a = false := by
  induction l with
  | nil => simp [List.dropWhile] at h
  | cons b t ih =>
    rw [List.dropWhile_cons] at h
    by_cases hb : p b = true
    · rw [if_pos hb] at h
      exact ih h
    · rw [if_neg hb] at h
      simp only [List.head?_cons, Option.some.injEq] at h
      subst h
      exact Bool.eq_false_iff.mpr hb

theorem dropWhile_eq_self_of_head {p : Char → Bool} {l : List Char} {a : Char}
    (h : l.head? = some a) (ha : p a = false) : List.dropWhile p l = l := by
  cases l with
  | nil => rfl
  | cons b t =>
    simp only [List.head?_cons, Option.some.injEq] at h
    subst h
    simp [List.dropWhile_cons, ha]

theorem getLast?_of_suffix {s l : List Char} (h : s <:+ l) (hs : s ≠ []) :
    l.getLast? = s.getLast? := by
  obtain ⟨t, rfl⟩ := h
  rw [List.getLast?_append]
  cases h' : s.getLast? with
  | none => exact absurd (List.getLast?_eq_none_iff.mp h') hs
  | some a => simp [Option.or]

theorem stripChars_last (l : List Char) {b : Char}
    (h : (stripChars l).getLast? = some b) : Char.isWhitespace b = false := by
  have h' : (List.dropWhile Char.isWhitespace
      ((List.dropWhile Char.isWhitespace l).reverse)).head? = some b := by
    rw [← List.getLast?_reverse]
    exact h
  exact head?_dropWhile_false h'

theorem stripChars_head (l : List Char) {a : Char}
    (h : (stripChars l).head? = some a) : Char.isWhitespace a = false := by
  have hX : (List.dropWhile Char.isWhitespace
      ((List.dropWhile Char.isWhitespace l).reverse)).getLast? = some a := by
    rw [← List.head?_reverse]
    exact h
  have hXne : (List.dropWhile Char.isWhitespace
      ((List.dropWhile Char.isWhitespace l).reverse)) ≠ [] := by
    intro hnil
    rw [hnil] at hX
    simp at hX
  have hA : ((List.dropWhile Char.isWhitespace l).reverse).getLast? = some a := by
    rw [getLast?_of_suffix (List.dropWhile_suffix _) hXne]
    exact hX
  have hA' : (List.dropWhile Char.isWhitespace l).head? = some a := by
    rw [← List.getLast?_reverse]
    exact hA
  exact head?_dropWhile_false hA'

theorem stripChars_eq_self {t : List Char}
    (ha : ∀ a, t.head? = some a → Char.isWhitespace a = false)
    (hb : ∀ b, t.getLast? = some b → Char.isWhitespace b = false) :
    stripChars t = t := by
  cases hh : t.head? with
  | none =>
    rw [List.head?_eq_none_iff.mp hh]
    rfl
  | some a =>
    have htne : t ≠ [] := by
      intro hnil
      rw [hnil] at hh
      simp at hh
    have h1 : List.dropWhile Char.isWhitespace t = t :=
      dropWhile_eq_self_of_head hh (ha a hh)
    obtain ⟨b, hg⟩ : ∃ b, t.getLast? = some b := by
      cases hg : t.getLast? with
      | none => exact absurd (List.getLast?_eq_none_iff.mp hg) htne
      | some b => exact ⟨b, rfl⟩
    have h2 : List.dropWhile Char.isWhitespace t.reverse = t.reverse :=
      dropWhile_eq_self_of_head (by rw [List.head?_reverse]; exact hg) (hb b hg)
    show ((t.dropWhile Char.isWhitespace).reverse.dropWhile Char.isWhitespace).reverse = t
    rw [h1, h2, List.reverse_reverse]

theorem stripChars_idem (l : List Char) : stripChars (stripChars l) = stripChars l :=
  stripChars_eq_self (fun _ h => stripChars_head l h) (fun _ h => stripChars_last l h)

theorem pyStrip_idem (s : String) : pyStrip (pyStrip s) = pyStrip s := by
  simp [pyStrip, stripChars_idem]

theorem parseAll_length {parse : String → Option Nat} :
    ∀ {l : List Cell} {ds : List Nat}, parseAll parse l = some ds → ds.length = l.length := by
  intro l
  induction l with
  | nil => intro ds h; simp [parseAll] at h; simp [← h]
  | cons x rest ih =>
    intro ds h
    cases x with
    | str s =>
      simp only [parseAll] at h
      cases hp : parse s with
      | none => rw [hp] at h; simp at h
      | some d =>
        rw [hp] at h
        cases hr : parseAll parse rest with
        | none => rw [hr] at h; simp at h
        | some ds2 =>
          rw [hr] at h
          simp only [Option.some.injEq] at h
          subst h
          simp [ih hr]
    | na => simp [parseAll] at h
    | num n => simp [parseAll] at h
    | date d => simp [parseAll] at h

theorem cleanCol_name (parse : String → Option Nat) (c : Column) :
    (cleanCol parse c).name = c.name := by
  cases hd : c.dtype with
  | numeric => simp [cleanCol, hd]
  | datetime => simp [cleanCol, hd]
  | object =>
    simp only [cleanCol, hd]
    unfold tryParseDates
    cases hp : parseAll parse (stripCells c).cells with
    | some ds => simp [stripCells]
    | none => simp [stripCells]

theorem cleanCol_length (parse : String → Option Nat) (c : Column) :
    (cleanCol parse c).cells.length = c.cells.length := by
  cases hd : c.dtype with
  | numeric => simp [cleanCol, hd]
  | datetime => simp [cleanCol, hd]
  | object =>
    simp only [cleanCol, hd]
    unfold tryParseDates
    cases hp : parseAll parse (stripCells c).cells with
    | some ds =>
      have hlen := parseAll_length hp
      simp only [stripCells, List.length_map] at hlen
      simp [hlen]
    | none => simp [stripCells]

theorem cleanCol_keep (parse : String → Option Nat) (c : Column)
    (h : keepCol c = true) : keepCol (cleanCol parse c) = true := by
  have hne : c.cells ≠ [] := by
    intro hnil
    rw [keepCol, hnil] at h
    simp at h
  cases hd : c.dtype with
  | numeric => simpa [cleanCol, hd] using h
  | datetime => simpa [cleanCol, hd] using h
  | object =>
    simp only [cleanCol, hd]
    unfold tryParseDates
    cases hp : parseAll parse (stripCells c).cells with
    | none =>
      show keepCol (stripCells c) = true
      cases hc : c.cells with
      | nil => exact absurd hc hne
      | cons a t => simp [keepCol, stripCells, hc]
    | some ds =>
      have hlen := parseAll_length hp
      simp only [stripCells, List.length_map] at hlen
      cases hds : ds with
      | nil =>
        rw [hds] at hlen
        exact absurd (List.length_eq_zero.mp hlen.symm) hne
      | cons d dt => simp [keepCol]

theorem stripCells_stripCells (c : Column) : stripCells (stripCells c) = stripCells c := by
  simp only [stripCells, List.map_map]
  congr 1
  apply List.map_congr_left
  intro x _
  simp [Function.comp, pyStr, pyStrip_idem]

theorem cleanCol_idem (parse : String → Option Nat) (c : Column) :
    cleanCol parse (cleanCol parse c) = cleanCol parse c := by
  cases hd : c.dtype with
  | numeric => simp [cleanCol, hd]
  | datetime => simp [cleanCol, hd]
  | object =>
    simp only [cleanCol, hd]
    unfold tryParseDates
    cases hp : parseAll parse (stripCells c).cells with
    | some ds => simp [cleanCol]
    | none =>
      show cleanCol parse (stripCells c) = stripCells c
      have hdt : (stripCells c).dtype = Dtype.object := by simp [stripCells, hd]
      simp only [cleanCol, hdt]
      rw [stripCells_stripCells]
      unfold tryParseDates
      rw [hp]

/-- C6: the Table Cleaner is idempotent: applying `clean_dataframe` twice
yields the same table as applying it once, for every dataframe and every
datetime parser. -/
theorem clean_dataframe_idempotent (parse : String → Option Nat) (df : DataFrame) :
    clean_dataframe parse (clean_dataframe parse df) = clean_dataframe parse df := by
  show DataFrame.mk _ = DataFrame.mk _
  congr 1
  have hstep1 :
      ((((df.cols.map stripHeader).filter keepCol).map (cleanCol parse)).map stripHeader) =
      (((df.cols.map stripHeader).filter keepCol).map (cleanCol parse)) := by
    rw [List.map_map]
    apply List.map_congr_left
    intro x hx
    have hxname : pyStrip x.name = x.name := by
      have hx2 := List.mem_of_mem_filter hx
      obtain ⟨y, _, rfl⟩ := List.mem_map.mp hx2
      simp [stripHeader, pyStrip_idem]
    show stripHeader (cleanCol parse x) = cleanCol parse x
    cases h : cleanCol parse x with
    | mk n d cs =>
      have hn : n = x.name := by rw [← cleanCol_name parse x, h]
      simp [stripHeader, hn, hxname]
  have hstep2 :
      ((((df.cols.map stripHeader).filter keepCol).map (cleanCol parse)).filter keepCol) =
      (((df.cols.map stripHeader).filter keepCol).map (cleanCol parse)) := by
    apply List.filter_eq_self.mpr
    intro y hy
    obtain ⟨x, hx, rfl⟩ := List.mem_map.mp hy
    exact cleanCol_keep parse x (List.of_mem_filter hx)
  show ((((df.cols.map stripHeader).filter keepCol).map (cleanCol parse)).map
      stripHeader |>.filter keepCol).map (cleanCol parse) =
    ((df.cols.map stripHeader).filter keepCol).map (cleanCol parse)
  rw [hstep1, hstep2, List.map_map]
  apply List.map_congr_left
  intro x _
  exact cleanCol_idem parse x

theorem clean_sig_sublist (parse : String → Option Nat) (df : DataFrame) :
    ((clean_dataframe parse df).cols.map colSig).Sublist
      (df.cols.map (fun c => (pyStrip c.name, c.cells.length))) := by
  show ((((df.cols.map stripHeader).filter keepCol).map (cleanCol parse)).map colSig).Sublist _
  rw [List.map_map]
  have heq : (((df.cols.map stripHeader).filter keepCol).map (colSig ∘ cleanCol parse)) =
      (((df.cols.map stripHeader).filter keepCol).map colSig) := by
    apply List.map_congr_left
    intro x _
    simp [Function.comp, colSig, cleanCol_name, cleanCol_length]
  rw [heq]
  have h1 : (((df.cols.map stripHeader).filter keepCol).map colSig).Sublist
      ((df.cols.map stripHeader).map colSig) :=
    List.Sublist.map colSig (List.filter_sublist _)
  have h2 : ((df.cols.map stripHeader).map colSig) =
      df.cols.map (fun c => (pyStrip c.name, c.cells.length)) := by
    rw [List.map_map]
    rfl
  exact h2 ▸ h1

theorem threshold_iff (a n : ℕ) :
    ((a : ℚ) ≤ max 20 (5 / 100 * (n : ℚ))) ↔ a ≤ max 20 (n / 20) := by
  have h1 : (5 : ℚ) / 100 * (n : ℚ) = (n : ℚ) / 20 := by ring
  rw [h1, le_max_iff, le_max_iff]
  apply or_congr
  · exact_mod_cast Iff.rfl
  · constructor
    · intro h
      rw [le_div_iff₀ (by norm_num : (0:ℚ) < 20)] at h
      have h2 : (a * 20 : ℕ) ≤ n := by exact_mod_cast h
      exact (Nat.le_div_iff_mul_le (by norm_num)).mpr h2
    · intro h
      have h2 := (Nat.le_div_iff_mul_le (k := 20) (by norm_num)).mp h
      rw [le_div_iff₀ (by norm_num : (0:ℚ) < 20)]
      exact_mod_cast h2

theorem map_fst_pair {α β : Type} (f : α → β) (l : List α) :
    (l.map (fun k => (k, f k))).map Prod.fst = l := by
  induction l with
  | nil => rfl
  | cons a t ih => simp [ih]

theorem groupbySum_keys (df : DataFrame) (x y : String) :
    (groupbySum df x y).map Prod.fst =
      List.insertionSort (fun a b => cellLe a b = true) (colCells df x).dedup := by
  simp only [groupbySum]
  exact map_fst_pair _ _

theorem groupbySum_nodup (df : DataFrame) (x y : String) :
    ((groupbySum df x y).map Prod.fst).Nodup := by
  rw [groupbySum_keys]
  exact ((List.perm_insertionSort _ _).nodup_iff).mpr (List.nodup_dedup _)

theorem groupbySum_mem_keys (df : DataFrame) (x y : String) (k : Cell) :
    k ∈ (groupbySum df x y).map Prod.fst ↔ k ∈ colCells df x := by
  rw [groupbySum_keys]
  rw [(List.perm_insertionSort _ _).mem_iff]
  exact List.mem_dedup

theorem groupbySum_val (df : DataFrame) (x y : String) (k : Cell) (v : Int)
    (h : (k, v) ∈ groupbySum df x y) :
    v = ((((colCells df x).zip (colCells df y)).filter
        (fun r => decide (r.1 = k))).map (fun r => cellNum r.2)).sum := by
  simp only [groupbySum, List.mem_map] at h
  obtain ⟨k2, _, heq⟩ := h
  injection heq with h1 h2
  subst h1
  exact h2.symm

/-- C1: the Chart Suggester evaluates the six rules in the fixed order
line, bar, scatter, box, histogram, pie, each gated by availability of its
required kinds; for a kinds mapping whose datetime columns are exactly
`[d]`, numeric columns exactly `[n1, n2]` and categorical columns exactly
`[c]`, the output is exactly the six suggestions in that exact order. -/
theorem suggest_charts_fixed_rules :
    (∀ df kinds, suggest_charts df kinds = suggestChartsSpec kinds) ∧
    (∀ df kinds d n1 n2 c,
      dtCols kinds = [d] → numericCols kinds = [n1, n2] → catCols kinds = [c] →
      suggest_charts df kinds =
        [("line", d, some n1), ("bar", c, some n1), ("scatter", n1, some n2),
         ("box", c, some n1), ("histogram", n1, none), ("pie", c, some n1)]) := by
  constructor
  · intro df kinds
    simp only [suggest_charts, suggestChartsSpec]
    split_ifs <;> simp
  · intro df kinds d n1 n2 c hdt hnum hcat
    simp only [suggest_charts, hdt, hnum, hcat]
    simp

theorem suggest_charts_fixed_rules_witness :
    suggest_charts (DataFrame.mk []) kindsEx =
      [("line", "d", some ("n1")), ("bar", "c", some ("n1")), ("scatter", "n1", some ("n2")),
       ("box", "c", some ("n1")), ("histogram", "n1", none), ("pie", "c", some ("n1"))] :=
  suggest_charts_fixed_rules.2 (DataFrame.mk []) kindsEx ("d") ("n1") ("n2") ("c") rfl rfl rfl

/-- C2: the Kind Inferencer classifies a column as numeric when its storage
dtype is numeric, else datetime when its dtype is a timestamp dtype, and
otherwise as categorical exactly when the count of distinct non-missing
values is at most max(20, 5 percent of the row count), else as text. -/
theorem infer_column_kinds_rule (df : DataFrame) (c : Column) (hmem : c ∈ df.cols) :
    (c.name, kindOf df c) ∈ infer_column_kinds df ∧
    (c.dtype = Dtype.numeric → kindOf df c = "numeric") ∧
    (c.dtype = Dtype.datetime → kindOf df c = "datetime") ∧
    (c.dtype = Dtype.object →
      ((kindOf df c = "categorical" ↔
        (nunique c : ℚ) ≤ max 20 (5 / 100 * (rowCount df : ℚ))) ∧
       (kindOf df c = "text" ↔
        ¬ (nunique c : ℚ) ≤ max 20 (5 / 100 * (rowCount df : ℚ))))) := by
  refine ⟨List.mem_map.mpr ⟨c, hmem, rfl⟩, ?_, ?_, ?_⟩
  · intro h
    simp [kindOf, h]
  · intro h
    simp [kindOf, h]
  · intro h
    rw [threshold_iff]
    constructor <;>
      by_cases hle : nunique c ≤ max 20 (rowCount df / 20) <;> simp [kindOf, h, hle]

theorem infer_column_kinds_rule_witness :
    kindOf exampleDf (Column.mk ("Sales") Dtype.numeric
      [Cell.num 10, Cell.num 20, Cell.num 5]) = "numeric" :=
  (infer_column_kinds_rule exampleDf
    (Column.mk ("Sales") Dtype.numeric [Cell.num 10, Cell.num 20, Cell.num 5])
    (by decide)).2.1 rfl

/-- C3: for a pie chart with both x and y given, the Figure Builder groups
the rows by the x column and sums the y column within each group, rendering
one slice per distinct key; on rows (A,10), (A,20), (B,5) the groups are
A = 30 and B = 5. -/
theorem build_figure_pie_groupby_sum :
    (∀ df x y color agg title pal,
      build_figure df ("pie") (some x) (some y) color agg title pal =
        Except.ok (Figure.pieAgg (groupbySum df x y) x y title)) ∧
    (∀ df x y, ((groupbySum df x y).map Prod.fst).Nodup) ∧
    (∀ df x y k, k ∈ (groupbySum df x y).map Prod.fst ↔ k ∈ colCells df x) ∧
    (∀ df x y k v, (k, v) ∈ groupbySum df x y →
      v = ((((colCells df x).zip (colCells df y)).filter
          (fun r => decide (r.1 = k))).map (fun r => cellNum r.2)).sum) ∧
    groupbySum exampleDf ("Region") ("Sales") =
      [(Cell.str ("A"), 30), (Cell.str ("B"), 5)] :=
  ⟨fun _ _ _ _ _ _ _ => rfl, groupbySum_nodup, groupbySum_mem_keys, groupbySum_val, rfl⟩

theorem build_figure_pie_groupby_sum_witness :
    (30 : Int) = ((((colCells exampleDf ("Region")).zip (colCells exampleDf ("Sales"))).filter
        (fun r => decide (r.1 = Cell.str ("A")))).map (fun r => cellNum r.2)).sum :=
  build_figure_pie_groupby_sum.2.2.2.1 exampleDf ("Region") ("Sales")
    (Cell.str ("A")) 30 (by decide)

/-- C4 counterexample: with x absent, y = Sales and color = Region, the pie
branch counts the color column Region, not the given y column Sales, so the
claim that the counted field is y fails at this input. -/
theorem build_figure_pie_counts_cex :
    build_figure exampleDf ("pie") none (some ("Sales")) (some ("Region")) none ("") none =
      Except.ok (Figure.pieCount exampleDf (some ("Region")) ("")) ∧
    build_figure exampleDf ("pie") none (some ("Sales")) (some ("Region")) none ("") none ≠
      Except.ok (Figure.pieCount exampleDf (some ("Sales")) ("")) := by
  refine ⟨rfl, ?_⟩
  intro h
  rw [show build_figure exampleDf ("pie") none (some ("Sales")) (some ("Region")) none ("") none =
      Except.ok (Figure.pieCount exampleDf (some ("Region")) ("")) from rfl] at h
  simp at h

/-- C4 amended: when exactly one of x and y is given, the pie branch
renders unweighted category counts of the column `x or color`: the x column
when x is given, else the color column (the y column is ignored). -/
theorem build_figure_pie_counts_amended :
    (∀ df x color agg title pal,
      build_figure df ("pie") (some x) none color agg title pal =
        Except.ok (Figure.pieCount df (some x) title)) ∧
    (∀ df y color agg title pal,
      build_figure df ("pie") none (some y) color agg title pal =
        Except.ok (Figure.pieCount df color title)) :=
  ⟨fun _ _ _ _ _ _ => rfl, fun _ _ _ _ _ _ => rfl⟩

/-- C5: the Figure Builder reaches the unsupported-chart raise exactly for
chart-type strings outside the six-element enum, regardless of the other
arguments. -/
theorem build_figure_unsupported_iff (df : DataFrame) (chart : String)
    (x y color agg : Option String) (title : String) (pal : Option String) :
    build_figure df chart x y color agg title pal =
        Except.error ("Unsupported chart type") ↔
      chart ∉ (["line", "bar", "scatter", "histogram", "box", "pie"] : List String) := by
  unfold build_figure
  split_ifs with h1 h2 h3 h4 h5 h6
  · simp [h1]
  · simp [h2]
  · simp [h3]
  · simp [h4]
  · simp [h5]
  · cases x <;> cases y <;> simp [h6]
  · simp [h1, h2, h3, h4, h5, h6]

theorem build_figure_unsupported_iff_witness :
    build_figure (DataFrame.mk []) ("radar") none none none none ("") none =
      Except.error ("Unsupported chart type") :=
  (build_figure_unsupported_iff (DataFrame.mk []) ("radar")
    none none none none ("") none).mpr (by decide)

/-- C7: the CSV Loader returns the result of the first strategy that
succeeds in the fixed order utf-8, cp1252, sniffing fallback, and it fails
if and only if all three strategies fail. -/
theorem load_csv_first_success (readCsv : String → List Nat → Option DataFrame)
    (sniffCsv : List Nat → Option DataFrame) (buffer : List Nat) :
    (load_csv_to_dataframe readCsv sniffCsv buffer =
      firstSuccess [readCsv ("utf-8") buffer, readCsv ("cp1252") buffer,
        sniffCsv buffer]) ∧
    (load_csv_to_dataframe readCsv sniffCsv buffer = none ↔
      readCsv ("utf-8") buffer = none ∧ readCsv ("cp1252") buffer = none ∧
        sniffCsv buffer = none) := by
  cases h1 : readCsv ("utf-8") buffer <;>
    cases h2 : readCsv ("cp1252") buffer <;>
      cases h3 : sniffCsv buffer <;>
        simp [load_csv_to_dataframe, tryEncodings, firstSuccess, h1, h2, h3]

theorem load_csv_first_success_witness :
    load_csv_to_dataframe
      (fun e _ => if e = "cp1252" then some (DataFrame.mk []) else none)
      (fun _ => none) [] = some (DataFrame.mk []) := by
  rw [(load_csv_first_success
    (fun e _ => if e = "cp1252" then some (DataFrame.mk []) else none)
    (fun _ => none) []).1]
  rfl

theorem clean_dataframe_checked_dup_headers_raise :
    clean_dataframe_checked parseIsoDate dupDf = none := by
  decide

/-- C8: for every input dataframe, every table the Table Cleaner actually
produces has pairwise distinct column names after header normalization.
On inputs whose trimmed surviving headers collide, the source raises an
uncaught AttributeError (duplicate-label indexing) and produces no table;
on all other inputs the produced table is the per-column pipeline's
result, whose names are the distinct trimmed survivors. -/
theorem clean_dataframe_unique_headers (parse : String → Option Nat)
    (df t : DataFrame) (h : clean_dataframe_checked parse df = some t) :
    ((t.cols.map (fun c => c.name)).Nodup) ∧ t = clean_dataframe parse df := by
  unfold clean_dataframe_checked at h
  split_ifs at h with hnd
  · injection h with h2
    subst h2
    refine ⟨?_, rfl⟩
    show ((((df.cols.map stripHeader).filter keepCol).map (cleanCol parse)).map
        (fun c => c.name)).Nodup
    rw [List.map_map]
    have heq : (((df.cols.map stripHeader).filter keepCol).map
        ((fun c => c.name) ∘ cleanCol parse)) =
        (((df.cols.map stripHeader).filter keepCol).map (fun c => c.name)) :=
      List.map_congr_left (fun x _ => cleanCol_name parse x)
    rw [heq]
    exact hnd

theorem clean_dataframe_unique_headers_witness :
    ((exampleDf.cols.map (fun c => c.name)).Nodup) ∧
      exampleDf = clean_dataframe parseIsoDate exampleDf :=
  clean_dataframe_unique_headers parseIsoDate exampleDf exampleDf (by decide)

/-- C9: the Figure Builder ignores the aggregation hint and the palette:
two calls differing only in agg and color_continuous_scale coincide. -/
theorem build_figure_ignores_agg_palette (df : DataFrame) (chart : String)
    (x y color agg agg2 : Option String) (title : String) (pal pal2 : Option String) :
    build_figure df chart x y color agg title pal =
      build_figure df chart x y color agg2 title pal2 := rfl

/-- C10: the Table Cleaner preserves each surviving column's header (up to
trimming) and cell count, keeps surviving columns in their original
relative order, and on a uniform-height table every output column keeps the
input row count. -/
theorem clean_dataframe_shape (parse : String → Option Nat) (df : DataFrame) :
    (((clean_dataframe parse df).cols.map colSig).Sublist
      (df.cols.map (fun c => (pyStrip c.name, c.cells.length)))) ∧
    (∀ n, (∀ c ∈ df.cols, c.cells.length = n) →
      ∀ c ∈ (clean_dataframe parse df).cols, c.cells.length = n) := by
  refine ⟨clean_sig_sublist parse df, ?_⟩
  intro n hn c hc
  have h1 : colSig c ∈ (clean_dataframe parse df).cols.map colSig :=
    List.mem_map_of_mem colSig hc
  have h2 := (clean_sig_sublist parse df).subset h1
  obtain ⟨c2, hc2, heq⟩ := List.mem_map.mp h2
  have h3 : c.cells.length = c2.cells.length := by
    have h4 := congrArg Prod.snd heq
    simpa [colSig] using h4.symm
  rw [h3]
  exact hn c2 hc2

theorem clean_dataframe_shape_witness :
    (Column.mk ("Region") Dtype.object
      [Cell.str ("A"), Cell.str ("A"), Cell.str ("B")]).cells.length = 3 :=
  (clean_dataframe_shape parseIsoDate exampleDf).2 3 (by decide)
    (Column.mk ("Region") Dtype.object [Cell.str ("A"), Cell.str ("A"), Cell.str ("B")])
    (by decide)
